import Mathlib

/-!
Shallow embedding of `src/app/access-control/group-registry/groups-registry.component.ts`
(GroupsRegistryComponent of dspace-angular).

The reactive component is embedded as a pure state machine:
  * `CompState` carries every mutable field of the component together with
    effect logs (navigations, issued gateway fetches, notifications, stale
    cache signals) so that side effects become observable facts.
  * `Env` packages the external collaborators (group/eperson/dso data
    services, authorization service, translate service, request service) as
    deterministic oracles.
  * The rxjs pipeline of `search` is split into the synchronous part
    (`search`: state update, cancellation of the previous subscription and
    issuing of the fetch) and the asynchronous part (`onSearchResult`: what
    the subscriber does when the gateway emits a succeeded page for cycle
    `k`; `Event.gatewayFail`: a failed emission, which
    `getAllSucceededRemoteDataPayload` filters out before the subscriber).
  * `combineLatestRows` models rxjs `combineLatest` over the list built at
    lines 146-166: an `undefined` element (the tombstoned branch returns
    nothing) makes the stream error; otherwise all rows are joined in input
    order.
-/

set_option maxHeartbeats 1000000

namespace GroupsRegistry

/-- `hasValue` from `shared/empty.util`: neither null nor undefined. -/
def hasValue {α : Type} (x : Option α) : Bool := x.isSome

/-- Pagination metadata (`core/shared/page-info.model`), passed through opaquely. -/
structure PageInfo where
  elementsPerPage : Nat
  totalElements : Nat
  totalPages : Nat
  currentPage : Nat
deriving DecidableEq

/-- `core/data/paginated-list.model`. -/
structure PaginatedList (α : Type) where
  pageInfo : PageInfo
  page : List α
deriving DecidableEq

/-- `buildPaginatedList` from `core/data/paginated-list.model`. -/
def buildPaginatedList {α : Type} (pageInfo : PageInfo) (page : List α) : PaginatedList α :=
  ⟨pageInfo, page⟩

/-- A repository object a workflow group can be linked to. -/
structure DSpaceObject where
  uuid : String
deriving DecidableEq

/-- `core/data/remote-data`: the fields this component reads. -/
structure RemoteData (α : Type) where
  hasSucceeded : Bool
  errorMessage : Option String
  payload : Option α
deriving DecidableEq

/-- `core/eperson/models/group.model`: the fields this component reads
(`_links` hrefs are flattened into string fields). -/
structure Group where
  id : Option String
  name : String
  self : String
  objectHref : String
  subgroupsHref : String
  epersonsHref : String
deriving DecidableEq

/-- `core/eperson/models/eperson.model`: the fields this component reads. -/
structure EPerson where
  id : Option String
  name : String
deriving DecidableEq

/-- `core/eperson/models/group-dto.model`. -/
structure GroupDtoModel where
  group : Group
  ableToDelete : Bool
  subgroups : Option (PaginatedList Group)
  epersons : Option (PaginatedList EPerson)
deriving DecidableEq

/-- `core/data/feature-authorization/feature-id`: the one feature used here. -/
inductive FeatureID where
  | CanDelete
deriving DecidableEq

/-- A message handed to the NotificationsService collaborator. -/
inductive Notification where
  | success (message : String)
  | error (title : String) (content : String)
deriving DecidableEq

/-- The external collaborators, as deterministic oracles.
  * `searchGroups q p z` is the succeeded payload the gateway emits for
    `groupService.searchGroups(q, {currentPage p, elementsPerPage z})`;
  * `dsoFindByHref` is `dSpaceObjectDataService.findByHref` after
    `getFirstSucceededRemoteData()`: either the emitted RemoteData (possibly
    null, hence the Option) or a stream error;
  * `groupFindAllByHref` / `ePersonFindAllByHref` are the first succeeded
    RemoteData of `findAllByHref`;
  * `deleteRD` is the first completed RemoteData of `groupService.delete`;
  * `translate key arg` is `translateService.get(key, {...arg})`. -/
structure Env where
  searchGroups : String → Nat → Nat → PaginatedList Group
  isAuthorized : FeatureID → Option String → Bool
  dsoFindByHref : String → Except Unit (Option (RemoteData DSpaceObject))
  groupFindAllByHref : String → RemoteData (PaginatedList Group)
  ePersonFindAllByHref : String → RemoteData (PaginatedList EPerson)
  deleteRD : String → RemoteData Unit
  getBrowseEndpoint : String
  getGroupRegistryRouterLink : String
  translate : String → Option String → String

/-- `hasLinkedDSO` (lines 228-234): `findByHref` piped through
`getFirstSucceededRemoteData()`, then `map(rd => hasValue(rd) &&
hasValue(rd.payload))`, then `catchError(() => observableOf(false))`. -/
def hasLinkedDSO (env : Env) (group : Group) : Bool :=
  match env.dsoFindByHref group.objectHref with
  | Except.ok (some rd) => hasValue (some rd) && hasValue rd.payload
  | Except.ok none => false
  | Except.error _ => false

/-- `getSubgroups` (lines 220-222). -/
def getSubgroups (env : Env) (group : Group) : RemoteData (PaginatedList Group) :=
  env.groupFindAllByHref group.subgroupsHref

/-- `getMembers` (lines 212-214). -/
def getMembers (env : Env) (group : Group) : RemoteData (PaginatedList EPerson) :=
  env.ePersonFindAllByHref group.epersonsHref

/-- The per-row join of lines 148-164: `combineLatest([isAuthorized,
hasLinkedDSO, getSubgroups, getMembers])` mapped into a `GroupDtoModel`. -/
def enrichRow (env : Env) (group : Group) : GroupDtoModel :=
  let isAuthorized :=
    env.isAuthorized FeatureID.CanDelete
      (if hasValue (some group) then some group.self else none)
  let hasLinked := hasLinkedDSO env group
  let subgroups := getSubgroups env group
  let members := getMembers env group
  { group := group
    ableToDelete := isAuthorized && !hasLinked
    subgroups := subgroups.payload
    epersons := members.payload }

/-- `this.deletedGroupsIds.includes(group.id)` (line 147): `includes` on a
string array is false for an undefined id. -/
def includesId (ids : List String) (id : Option String) : Bool :=
  match id with
  | some i => ids.contains i
  | none => false

/-- The callback of `groups.page.map` (lines 146-165): a non-tombstoned group
yields its row observable; a tombstoned one falls off the end of the arrow
function, i.e. yields `undefined` (`none`). -/
def rowObservable (env : Env) (deletedGroupsIds : List String) (group : Group) :
    Option GroupDtoModel :=
  if !(includesId deletedGroupsIds group.id) then
    some (enrichRow env group)
  else
    none

/-- How an rxjs stream built by the page-level `combineLatest` can end. -/
inductive StreamError where
  | undefinedInput
deriving DecidableEq

/-- rxjs `combineLatest` over the mapped array (line 146): an `undefined`
element errors the stream (`subscribeToResult` rejects it); otherwise the
latest values are joined in input order. -/
def combineLatestRows : List (Option GroupDtoModel) → Except StreamError (List GroupDtoModel)
  | [] => Except.ok []
  | none :: _ => Except.error StreamError.undefinedInput
  | some dto :: rest =>
      match combineLatestRows rest with
      | Except.ok dtos => Except.ok (dto :: dtos)
      | Except.error e => Except.error e

/-- The `switchMap` body of `search` (lines 142-168): empty pages
short-circuit to an empty list with the gateway's pageInfo; otherwise the
page is mapped to row observables, joined by `combineLatest`, and rebuilt
into a `PaginatedList` with the gateway's pageInfo. -/
def assemblePage (env : Env) (deletedGroupsIds : List String)
    (groups : PaginatedList Group) : Except StreamError (PaginatedList GroupDtoModel) :=
  if groups.page.length = 0 then
    Except.ok (buildPaginatedList groups.pageInfo [])
  else
    match combineLatestRows (groups.page.map (rowObservable env deletedGroupsIds)) with
    | Except.ok dtos => Except.ok (buildPaginatedList groups.pageInfo dtos)
    | Except.error e => Except.error e

/-- A `searchGroups` request issued by `search` (the arguments of line 137-140)
tagged with the id of the subscription that awaits it. -/
structure FetchReq where
  id : Nat
  query : String
  page : Nat
  size : Nat
deriving DecidableEq

/-- The component's mutable state plus logs of its outward effects. -/
structure CompState where
  currentSearchQuery : String
  currentPage : Nat
  pageSize : Nat
  deletedGroupsIds : List String
  searchSub : Option Nat
  nextSubId : Nat
  subs : List Nat
  groupsDto : Option (PaginatedList GroupDtoModel)
  pageInfoState : Option PageInfo
  searching : Bool
  navigations : List String
  fetches : List FetchReq
  notifications : List Notification
  staleSignals : List String
deriving DecidableEq

/-- The constructor state: `currentSearchQuery = ''`, pagination config with
`pageSize 5, currentPage 1`, no subscription, empty logs; the two
BehaviorSubjects start without a published page (`{} as any` / undefined). -/
def initState : CompState :=
  { currentSearchQuery := ""
    currentPage := 1
    pageSize := 5
    deletedGroupsIds := []
    searchSub := none
    nextSubId := 0
    subs := []
    groupsDto := none
    pageInfoState := none
    searching := false
    navigations := []
    fetches := []
    notifications := []
    staleSignals := [] }

/-- `search(data)` (lines 124-175), synchronous part: set the busy flag; if
the submitted query is non-null and differs, navigate, record it and reset
the page to 1; unsubscribe a pending search subscription; subscribe a fresh
one (a fresh id) and issue the gateway fetch for the trimmed current query at
the current page. -/
def search (env : Env) (s : CompState) (query : Option String) : CompState :=
  let s1 : CompState := { s with searching := true }
  let s2 : CompState :=
    match query with
    | some q =>
        if s1.currentSearchQuery ≠ q then
          { s1 with navigations := s1.navigations ++ [env.getGroupRegistryRouterLink]
                    currentSearchQuery := q
                    currentPage := 1 }
        else s1
    | none => s1
  let s3 : CompState :=
    match s2.searchSub with
    | some old => { s2 with subs := s2.subs.filter (fun sub => sub != old) }
    | none => s2
  { s3 with searchSub := some s3.nextSubId
            nextSubId := s3.nextSubId + 1
            subs := s3.subs ++ [s3.nextSubId]
            fetches := s3.fetches ++
              [⟨s3.nextSubId, s3.currentSearchQuery.trim, s3.currentPage, s3.pageSize⟩] }

/-- `onPageChange(event)` (lines 115-118). -/
def onPageChange (env : Env) (s : CompState) (event : Nat) : CompState :=
  search env { s with currentPage := event } (some s.currentSearchQuery)

/-- The subscriber body (lines 169-173): publish the assembled page, its
pageInfo, and clear the busy flag. -/
def publishResult (s : CompState) (value : PaginatedList GroupDtoModel) : CompState :=
  { s with groupsDto := some value
           pageInfoState := some value.pageInfo
           searching := false }

/-- A succeeded gateway emission reaching subscription `k`: it is delivered
only while `k` is still the live `searchSub` (an unsubscribed subscription
never fires). The delivered page is the gateway's answer to the request that
subscription `k` issued; it flows through the `switchMap` body
(`assemblePage`) and, unless the stream errored, into the subscriber. -/
def onSearchResult (env : Env) (s : CompState) (k : Nat) : CompState :=
  if s.searchSub = some k then
    match s.fetches.find? (fun f => f.id == k) with
    | some f =>
        match assemblePage env s.deletedGroupsIds (env.searchGroups f.query f.page f.size) with
        | Except.ok value => publishResult s value
        | Except.error _ => s
    | none => s
  else s

/-- `reset` (lines 200-206): mark the group browse endpoint stale. -/
def reset (env : Env) (s : CompState) : CompState :=
  { s with staleSignals := s.staleSignals ++ [env.getBrowseEndpoint] }

/-- `deleteGroup(group)` (lines 180-195). -/
def deleteGroup (env : Env) (s : CompState) (group : GroupDtoModel) : CompState :=
  match group.group.id with
  | some i =>
      let rd := env.deleteRD i
      if rd.hasSucceeded then
        let s1 : CompState := { s with deletedGroupsIds := s.deletedGroupsIds ++ [i] }
        let s2 : CompState := { s1 with notifications := s1.notifications ++
          [Notification.success (env.translate
            "admin.access-control.groups.notification.deleted.success"
            (some group.group.name))] }
        reset env s2
      else
        { s with notifications := s.notifications ++
          [Notification.error
            (env.translate "admin.access-control.groups.notification.deleted.failure.title"
              (some group.group.name))
            (env.translate "admin.access-control.groups.notification.deleted.failure.content"
              rd.errorMessage)] }
  | none => s

/-- The external events the component reacts to. -/
inductive Event where
  | search (query : Option String)
  | pageChange (event : Nat)
  | gatewayNext (k : Nat)
  | gatewayFail (k : Nat)
  | deleteGroup (group : GroupDtoModel)
deriving DecidableEq

/-- Search submissions: a query submission or a page change. -/
def Event.isSubmission : Event → Bool
  | .search _ => true
  | .pageChange _ => true
  | .gatewayNext _ => false
  | .gatewayFail _ => false
  | .deleteGroup _ => false

/-- One event step. `gatewayFail` is a failed gateway emission: the pipeline
starts with `getAllSucceededRemoteDataPayload()`, which filters it out before
the subscriber, so the component state does not change at all. -/
def step (env : Env) (s : CompState) : Event → CompState
  | .search q => search env s q
  | .pageChange n => onPageChange env s n
  | .gatewayNext k => onSearchResult env s k
  | .gatewayFail _ => s
  | .deleteGroup g => deleteGroup env s g

/-- Run a list of events. -/
def run (env : Env) (s : CompState) : List Event → CompState
  | [] => s
  | e :: es => run env (step env s e) es

/-- Bookkeeping invariant: every issued fetch is tagged with an id below the
next fresh subscription id. Holds of `initState` and is preserved by steps. -/
def WfState (s : CompState) : Prop :=
  ∀ f ∈ s.fetches, f.id < s.nextSubId

/-! ### Concrete fixtures used by witnesses and counterexamples -/

def pi0 : PageInfo := ⟨5, 2, 1, 1⟩

def g1 : Group := ⟨some "g1", "Group One", "self-g1", "obj-g1", "sub-g1", "ep-g1"⟩

def g2 : Group := ⟨some "g2", "Group Two", "self-g2", "obj-g2", "sub-g2", "ep-g2"⟩

def dto1 : GroupDtoModel := ⟨g1, true, none, none⟩

def env0 : Env :=
  { searchGroups := fun _ _ _ => buildPaginatedList pi0 []
    isAuthorized := fun _ _ => true
    dsoFindByHref := fun _ => Except.error ()
    groupFindAllByHref := fun _ => ⟨true, none, some (buildPaginatedList pi0 [])⟩
    ePersonFindAllByHref := fun _ => ⟨true, none, some (buildPaginatedList pi0 [])⟩
    deleteRD := fun _ => ⟨true, none, none⟩
    getBrowseEndpoint := "/server/api/eperson/groups"
    getGroupRegistryRouterLink := "/access-control/groups"
    translate := fun key _ => key }

def env1 : Env := { env0 with deleteRD := fun _ => ⟨false, some "forbidden", none⟩ }

/-! ### C9: empty page short-circuit -/

/-- C9: for an empty input page, page assembly immediately returns the empty
row list with the gateway-provided pageInfo; the result is the same for every
enrichment environment and tombstone set, so no per-row lookup can influence
it (none is issued: the short-circuit branch never touches the oracles). -/
theorem assemblePage_empty_short_circuit (env env2 : Env)
    (deleted deleted2 : List String) (pi : PageInfo) :
    assemblePage env deleted (buildPaginatedList pi []) =
      Except.ok (buildPaginatedList pi []) ∧
    assemblePage env deleted (buildPaginatedList pi []) =
      assemblePage env2 deleted2 (buildPaginatedList pi []) :=
  ⟨rfl, rfl⟩

/-! ### C10: search with a null/undefined query -/

/-- C10: `search` with a null/undefined query leaves the stored query, the
current page and the navigation log unchanged, still sets the busy flag, and
still issues a fetch for the previous (trimmed) query at the current page. -/
theorem search_null_query_keeps_state_still_fetches (env : Env) (s : CompState) :
    (search env s none).currentSearchQuery = s.currentSearchQuery ∧
    (search env s none).currentPage = s.currentPage ∧
    (search env s none).navigations = s.navigations ∧
    (search env s none).searching = true ∧
    (search env s none).fetches = s.fetches ++
      [⟨s.nextSubId, s.currentSearchQuery.trim, s.currentPage, s.pageSize⟩] := by
  unfold search
  cases s.searchSub <;> simp

/-! ### C8: page reset on query change -/

/-- C8: a search submission with query text `q` resets the page to 1, records
the query and navigates exactly when `q` differs from the current query; an
unchanged query preserves the page and navigates nowhere; in both cases the
busy flag is set and a fetch is issued (at the post-update query and page). -/
theorem search_resets_page_iff_query_changed (env : Env) (s : CompState) (q : String) :
    (q ≠ s.currentSearchQuery →
      (search env s (some q)).currentSearchQuery = q ∧
      (search env s (some q)).currentPage = 1 ∧
      (search env s (some q)).navigations =
        s.navigations ++ [env.getGroupRegistryRouterLink]) ∧
    (q = s.currentSearchQuery →
      (search env s (some q)).currentSearchQuery = s.currentSearchQuery ∧
      (search env s (some q)).currentPage = s.currentPage ∧
      (search env s (some q)).navigations = s.navigations) ∧
    (search env s (some q)).searching = true ∧
    (search env s (some q)).fetches = s.fetches ++
      [⟨s.nextSubId, (search env s (some q)).currentSearchQuery.trim,
        (search env s (some q)).currentPage, s.pageSize⟩] := by
  unfold search
  by_cases hq : s.currentSearchQuery = q
  · subst hq
    cases s.searchSub <;> simp
  · cases s.searchSub <;> simp [hq, Ne.symm hq]

/-! ### C2: gateway search failure -/

/-- C2 as stated is refuted at a concrete input: after a search whose gateway
emission fails, the busy flag is still `true` and no notification was ever
emitted (the failed emission is filtered out before the subscriber; `search`
contains no error handler and no notification call). -/
theorem search_failure_counterexample :
    (run env0 initState [Event.search (some ""), Event.gatewayFail 0]).searching = true ∧
    (run env0 initState [Event.search (some ""), Event.gatewayFail 0]).notifications = [] :=
  ⟨rfl, rfl⟩

/-- C2 (amended): a failed gateway emission is filtered out by
`getAllSucceededRemoteDataPayload()` before the subscriber, so the whole
component state is unchanged: no rows are published and the previous
Published View is retained, but the busy flag is NOT cleared (it keeps its
value, `true` for a pending search) and no notification is emitted. -/
theorem gatewayFail_leaves_state_unchanged (env : Env) (s : CompState) (k : Nat) :
    step env s (Event.gatewayFail k) = s :=
  rfl

/-! ### C3: tombstoned rows -/

/-- C3 fails on the code: for a delivered page that still contains a
tombstoned group, the `groups.page.map` callback returns `undefined` for that
group (the `if` at line 147 has no `else`), `combineLatest` rejects the
`undefined` input and the stream errors, so page assembly publishes nothing
at all instead of dropping the tombstoned row; the same page with no
tombstoned id assembles fine. -/
theorem assemblePage_tombstoned_errors_stream :
    assemblePage env0 ["g1"] (buildPaginatedList pi0 [g1, g2]) =
      Except.error StreamError.undefinedInput ∧
    rowObservable env0 ["g1"] g1 = none ∧
    assemblePage env0 [] (buildPaginatedList pi0 [g1, g2]) =
      Except.ok (buildPaginatedList pi0 [enrichRow env0 g1, enrichRow env0 g2]) :=
  ⟨rfl, rfl, rfl⟩

/-! ### C5: linked-object lookup failure fails open -/

/-- C5: when the linked-object lookup errors, `catchError` absorbs the
failure into `false` ("no linked object"), so an authorized group's row still
has `ableToDelete = true`. -/
theorem hasLinkedDSO_fail_open (env : Env) (group : Group)
    (hfail : env.dsoFindByHref group.objectHref = Except.error ())
    (hauth : env.isAuthorized FeatureID.CanDelete (some group.self) = true) :
    hasLinkedDSO env group = false ∧ (enrichRow env group).ableToDelete = true := by
  constructor
  · simp [hasLinkedDSO, hfail]
  · simp [enrichRow, hasLinkedDSO, hfail, hasValue, hauth]

/-- Witness for C5 at a concrete group and environment. -/
theorem hasLinkedDSO_fail_open_witness :
    hasLinkedDSO env0 g1 = false ∧ (enrichRow env0 g1).ableToDelete = true :=
  hasLinkedDSO_fail_open env0 g1 rfl rfl

/-! ### C7: failed deletion -/

/-- C7: on a failed deletion the one and only state change is an appended
failure notification whose title carries the group's display name and whose
content carries the collaborator-reported error message; in particular the
tombstone set, the stale-signal log and everything else are untouched. -/
theorem deleteGroup_failure_only_notifies (env : Env) (s : CompState)
    (dto : GroupDtoModel) (i : String)
    (hid : dto.group.id = some i)
    (hfail : (env.deleteRD i).hasSucceeded = false) :
    deleteGroup env s dto = { s with notifications := s.notifications ++
      [Notification.error
        (env.translate "admin.access-control.groups.notification.deleted.failure.title"
          (some dto.group.name))
        (env.translate "admin.access-control.groups.notification.deleted.failure.content"
          (env.deleteRD i).errorMessage)] } := by
  unfold deleteGroup
  rw [hid]
  simp [hfail]

/-- Witness for C7 at a concrete group, state and failing environment. -/
theorem deleteGroup_failure_only_notifies_witness :
    deleteGroup env1 initState dto1 = { initState with notifications :=
      [Notification.error
        (env1.translate "admin.access-control.groups.notification.deleted.failure.title"
          (some dto1.group.name))
        (env1.translate "admin.access-control.groups.notification.deleted.failure.content"
          (env1.deleteRD "g1").errorMessage)] } := by
  have h := deleteGroup_failure_only_notifies env1 initState dto1 "g1" rfl rfl
  exact h

/-! ### C4: a no-tombstone page assembles to one row per group, in order -/

/-- `combineLatest` over a list of defined row observables joins them all,
in input order. -/
theorem combineLatestRows_all_defined (dtos : List GroupDtoModel) :
    combineLatestRows (dtos.map some) = Except.ok dtos := by
  induction dtos with
  | nil => rfl
  | cons d rest ih => simp [combineLatestRows, ih]

/-- C4: when no id of the input page is tombstoned, page assembly succeeds
with exactly one row per input group, in input order (the enrichment of that
group), and each row's `ableToDelete` is the conjunction of the
authorization flag and the negated linked-object flag for that group. -/
theorem assemblePage_no_tombstones (env : Env) (deleted : List String)
    (groups : PaginatedList Group)
    (h : ∀ g ∈ groups.page, includesId deleted g.id = false) :
    assemblePage env deleted groups =
      Except.ok (buildPaginatedList groups.pageInfo (groups.page.map (enrichRow env))) ∧
    (groups.page.map (enrichRow env)).length = groups.page.length ∧
    ∀ g ∈ groups.page, (enrichRow env g).ableToDelete =
      (env.isAuthorized FeatureID.CanDelete (some g.self) && !(hasLinkedDSO env g)) := by
  refine ⟨?_, List.length_map _ _, ?_⟩
  · have hmap : groups.page.map (rowObservable env deleted) =
        (groups.page.map (enrichRow env)).map some := by
      rw [List.map_map]
      refine List.map_congr_left ?_
      intro g hg
      simp [rowObservable, h g hg]
    unfold assemblePage
    by_cases hlen : groups.page.length = 0
    · rw [List.length_eq_zero] at hlen
      simp [hlen, buildPaginatedList]
    · simp only [hlen, if_false, hmap, combineLatestRows_all_defined]
  · intro g _
    simp [enrichRow, hasValue]

/-- Witness for C4 at a concrete two-group page with no tombstoned ids. -/
theorem assemblePage_no_tombstones_witness :
    assemblePage env0 [] (buildPaginatedList pi0 [g1, g2]) =
      Except.ok (buildPaginatedList pi0 ([g1, g2].map (enrichRow env0))) := by
  have h := assemblePage_no_tombstones env0 []
    (buildPaginatedList pi0 [g1, g2]) (by intro g hg; simp [includesId]; cases g.id <;> simp)
  exact h.1

/-! ### C6: successful deletion -/

/-- C6: a successful deletion appends the group's id to the tombstone set,
emits a success notification carrying the group's display name, triggers the
cache-invalidation signal scoped to the group collection (browse) endpoint,
and leaves the live search subscription with its recorded query/page intact,
so that the re-emission the invalidation provokes re-publishes the current
query at the current page (now with the tombstone applied). -/
theorem deleteGroup_success_spec (env : Env) (s : CompState)
    (dto : GroupDtoModel) (i : String)
    (hid : dto.group.id = some i)
    (hsucc : (env.deleteRD i).hasSucceeded = true) :
    (deleteGroup env s dto).deletedGroupsIds = s.deletedGroupsIds ++ [i] ∧
    (deleteGroup env s dto).notifications = s.notifications ++
      [Notification.success (env.translate
        "admin.access-control.groups.notification.deleted.success"
        (some dto.group.name))] ∧
    (deleteGroup env s dto).staleSignals = s.staleSignals ++ [env.getBrowseEndpoint] ∧
    (deleteGroup env s dto).searchSub = s.searchSub ∧
    (deleteGroup env s dto).fetches = s.fetches ∧
    (deleteGroup env s dto).currentSearchQuery = s.currentSearchQuery ∧
    (deleteGroup env s dto).currentPage = s.currentPage ∧
    (∀ k f value, s.searchSub = some k →
      s.fetches.find? (fun fr => fr.id == k) = some f →
      assemblePage env (s.deletedGroupsIds ++ [i])
        (env.searchGroups f.query f.page f.size) = Except.ok value →
      (onSearchResult env (deleteGroup env s dto) k).groupsDto = some value) := by
  have hdel : deleteGroup env s dto =
      { s with deletedGroupsIds := s.deletedGroupsIds ++ [i]
               notifications := s.notifications ++
                 [Notification.success (env.translate
                   "admin.access-control.groups.notification.deleted.success"
                   (some dto.group.name))]
               staleSignals := s.staleSignals ++ [env.getBrowseEndpoint] } := by
    unfold deleteGroup
    rw [hid]
    simp [hsucc, reset]
  rw [hdel]
  refine ⟨rfl, rfl, rfl, rfl, rfl, rfl, rfl, ?_⟩
  intro k f value hsub hfind hok
  unfold onSearchResult
  simp only [hsub, if_pos rfl, hfind, hok]
  rfl

/-- Witness for C6: deleting `g1` from the post-`ngOnInit` state. -/
theorem deleteGroup_success_spec_witness :
    (deleteGroup env0 (search env0 initState (some "")) dto1).deletedGroupsIds = ["g1"] ∧
    (deleteGroup env0 (search env0 initState (some "")) dto1).staleSignals =
      [env0.getBrowseEndpoint] ∧
    (deleteGroup env0 (search env0 initState (some "")) dto1).searchSub = some 0 := by
  have h := deleteGroup_success_spec env0 (search env0 initState (some "")) dto1 "g1" rfl rfl
  exact ⟨h.1.trans rfl, h.2.2.1.trans rfl, h.2.2.2.1.trans rfl⟩

/-! ### C1: cancellation of superseded cycles, last submission wins -/

/-- Fields `search` always touches the same way: a fresh subscription id
becomes the live `searchSub`, the id counter advances, a fetch for the
(trimmed) post-update query and page is appended, and the published view,
the tombstone set and the page size are untouched. -/
theorem search_core (env : Env) (s : CompState) (query : Option String) :
    (search env s query).searchSub = some s.nextSubId ∧
    (search env s query).nextSubId = s.nextSubId + 1 ∧
    (search env s query).pageSize = s.pageSize ∧
    (search env s query).deletedGroupsIds = s.deletedGroupsIds ∧
    (search env s query).groupsDto = s.groupsDto ∧
    (search env s query).pageInfoState = s.pageInfoState ∧
    (search env s query).fetches = s.fetches ++
      [⟨s.nextSubId, (search env s query).currentSearchQuery.trim,
        (search env s query).currentPage, s.pageSize⟩] := by
  unfold search
  cases query with
  | none => cases s.searchSub <;> simp
  | some q =>
      by_cases hq : s.currentSearchQuery = q
      · subst hq
        cases s.searchSub <;> simp
      · cases s.searchSub <;> simp [hq]

/-- `search_core`, lifted to a submission event (`search` or `pageChange`). -/
theorem step_submission_core (env : Env) (s : CompState) (e : Event)
    (he : e.isSubmission = true) :
    (step env s e).searchSub = some s.nextSubId ∧
    (step env s e).nextSubId = s.nextSubId + 1 ∧
    (step env s e).pageSize = s.pageSize ∧
    (step env s e).deletedGroupsIds = s.deletedGroupsIds ∧
    (step env s e).fetches = s.fetches ++
      [⟨s.nextSubId, (step env s e).currentSearchQuery.trim,
        (step env s e).currentPage, s.pageSize⟩] := by
  cases e with
  | search q =>
      have h := search_core env s q
      exact ⟨h.1, h.2.1, h.2.2.1, h.2.2.2.1, h.2.2.2.2.2.2⟩
  | pageChange n =>
      have h := search_core env { s with currentPage := n } (some s.currentSearchQuery)
      exact ⟨h.1, h.2.1, h.2.2.1, h.2.2.2.1, h.2.2.2.2.2.2⟩
  | gatewayNext k => simp [Event.isSubmission] at he
  | gatewayFail k => simp [Event.isSubmission] at he
  | deleteGroup g => simp [Event.isSubmission] at he

/-- Submission steps preserve the fetch-id invariant. -/
theorem wf_step_submission (env : Env) (s : CompState) (e : Event)
    (he : e.isSubmission = true) (hwf : WfState s) : WfState (step env s e) := by
  have h := step_submission_core env s e he
  intro f hf
  rw [h.2.2.2.2] at hf
  rw [h.2.1]
  rcases List.mem_append.mp hf with hold | hnew
  · exact Nat.lt_trans (hwf f hold) (Nat.lt_succ_self _)
  · have hfx := List.mem_singleton.mp hnew
    subst hfx
    exact Nat.lt_succ_self _

/-- The fetch-id invariant holds after any run of submission events. -/
theorem wf_run_submissions (env : Env) (es : List Event)
    (hes : ∀ e ∈ es, e.isSubmission = true) :
    ∀ s : CompState, WfState s → WfState (run env s es) := by
  induction es with
  | nil => exact fun s hs => hs
  | cons e t ih =>
      intro s hs
      exact ih (fun x hx => hes x (List.mem_cons_of_mem e hx)) (step env s e)
        (wf_step_submission env s e (hes e (List.mem_cons_self e t)) hs)

/-- Running a concatenation of event lists runs them in sequence. -/
theorem run_append (env : Env) (s : CompState) (l1 l2 : List Event) :
    run env s (l1 ++ l2) = run env (run env s l1) l2 := by
  induction l1 generalizing s with
  | nil => rfl
  | cons e t ih => exact ih (step env s e)

/-- Looking up a freshly appended fetch id skips all older fetches. -/
theorem find_fresh (l : List FetchReq) (k : Nat) (x : FetchReq)
    (hk : ∀ f ∈ l, f.id < k) (hx : x.id = k) :
    (l ++ [x]).find? (fun f => f.id == k) = some x := by
  induction l with
  | nil => simp [List.find?, hx]
  | cons a t ih =>
      have ha : a.id ≠ k := Nat.ne_of_lt (hk a (List.mem_cons_self a t))
      have hcond : (a.id == k) = false := by simpa using ha
      simp only [List.cons_append, List.find?, hcond]
      exact ih fun f hf => hk f (List.mem_cons_of_mem a hf)

/-- A gateway emission for a subscription that is no longer the live one is
never delivered: the unsubscribed subscription's callback cannot fire. -/
theorem onSearchResult_miss (env : Env) (s : CompState) (k j : Nat)
    (hsub : s.searchSub = some k) (hne : j ≠ k) :
    onSearchResult env s j = s := by
  unfold onSearchResult
  have hcond : ¬ (s.searchSub = some j) := by
    rw [hsub]
    intro hcontra
    exact hne (Option.some.inj hcontra).symm
  rw [if_neg hcond]

/-- A succeeded emission for the live subscription publishes the assembled
page for the query/page that subscription requested. -/
theorem onSearchResult_hit (env : Env) (s : CompState) (k : Nat) (f : FetchReq)
    (value : PaginatedList GroupDtoModel)
    (hsub : s.searchSub = some k)
    (hfind : s.fetches.find? (fun fr => fr.id == k) = some f)
    (hok : assemblePage env s.deletedGroupsIds
      (env.searchGroups f.query f.page f.size) = Except.ok value) :
    onSearchResult env s k = publishResult s value := by
  unfold onSearchResult
  rw [if_pos hsub, hfind]
  dsimp only
  rw [hok]

/-- Deliveries that never include the live subscription's id leave the state
untouched (the stale results of cancelled cycles are discarded). -/
theorem run_deliveries_absent (env : Env) (s : CompState) (k : Nat) (ds : List Nat)
    (hsub : s.searchSub = some k) (habs : k ∉ ds) :
    run env s (ds.map Event.gatewayNext) = s := by
  induction ds with
  | nil => rfl
  | cons d t ih =>
      have hd : d ≠ k := by
        rintro rfl
        exact habs (List.mem_cons_self d t)
      have ht : k ∉ t := fun h => habs (List.mem_cons_of_mem d h)
      show run env (step env s (Event.gatewayNext d)) (t.map Event.gatewayNext) = s
      rw [show step env s (Event.gatewayNext d) = onSearchResult env s d from rfl,
        onSearchResult_miss env s k d hsub hd]
      exact ih ht

/-- Once the live cycle's result is published, further deliveries (stale ids,
or repeats of the live id) do not change the published view. -/
theorem run_deliveries_after_publish (env : Env) (s : CompState) (k : Nat)
    (f : FetchReq) (value : PaginatedList GroupDtoModel)
    (hsub : s.searchSub = some k)
    (hfind : s.fetches.find? (fun fr => fr.id == k) = some f)
    (hok : assemblePage env s.deletedGroupsIds
      (env.searchGroups f.query f.page f.size) = Except.ok value)
    (ds : List Nat) :
    run env (publishResult s value) (ds.map Event.gatewayNext) = publishResult s value := by
  induction ds with
  | nil => rfl
  | cons d t ih =>
      show run env (step env (publishResult s value) (Event.gatewayNext d))
        (t.map Event.gatewayNext) = publishResult s value
      by_cases hd : d = k
      · subst hd
        rw [show step env (publishResult s value) (Event.gatewayNext d) =
            onSearchResult env (publishResult s value) d from rfl,
          onSearchResult_hit env (publishResult s value) d f value hsub hfind hok]
        exact ih
      · rw [show step env (publishResult s value) (Event.gatewayNext d) =
            onSearchResult env (publishResult s value) d from rfl,
          onSearchResult_miss env (publishResult s value) k d hsub hd]
        exact ih

/-- Any delivery sequence containing the live id settles on the live cycle's
published result, whatever stale or unknown ids surround it. -/
theorem run_deliveries_present (env : Env) (s : CompState) (k : Nat)
    (f : FetchReq) (value : PaginatedList GroupDtoModel)
    (hsub : s.searchSub = some k)
    (hfind : s.fetches.find? (fun fr => fr.id == k) = some f)
    (hok : assemblePage env s.deletedGroupsIds
      (env.searchGroups f.query f.page f.size) = Except.ok value)
    (ds : List Nat) (hmem : k ∈ ds) :
    run env s (ds.map Event.gatewayNext) = publishResult s value := by
  induction ds with
  | nil => cases hmem
  | cons d t ih =>
      show run env (step env s (Event.gatewayNext d)) (t.map Event.gatewayNext) =
        publishResult s value
      by_cases hd : d = k
      · subst hd
        rw [show step env s (Event.gatewayNext d) = onSearchResult env s d from rfl,
          onSearchResult_hit env s d f value hsub hfind hok]
        exact run_deliveries_after_publish env s d f value hsub hfind hok t
      · have ht : k ∈ t := by
          rcases List.mem_cons.mp hmem with h1 | h2
          · exact absurd h1.symm hd
          · exact h2
        rw [show step env s (Event.gatewayNext d) = onSearchResult env s d from rfl,
          onSearchResult_miss env s k d hsub hd]
        exact ih ht

/-- C1: run any nonempty sequence of search submissions (query submissions or
page changes), each issued before any gateway result arrives, then let all
pending gateway work settle in any order (`ds` may contain the ids of the
cancelled cycles, the live cycle, or anything else, in any order). If the
live (= last-submitted) cycle's id is delivered and its page assembles, the
Published View is exactly the assembled result of the last submitted
query/page pair and the busy flag clears; if only stale ids are delivered,
the Published View does not change at all — an earlier cycle's result is
never published. -/
theorem search_last_submission_wins (env : Env) (s0 : CompState) (hwf : WfState s0)
    (es : List Event) (hes : ∀ e ∈ es, e.isSubmission = true)
    (e : Event) (he : e.isSubmission = true) (ds : List Nat) :
    (∀ value, assemblePage env (run env s0 (es ++ [e])).deletedGroupsIds
        (env.searchGroups (run env s0 (es ++ [e])).currentSearchQuery.trim
          (run env s0 (es ++ [e])).currentPage
          (run env s0 (es ++ [e])).pageSize) = Except.ok value →
      ((run env s0 (es ++ [e])).nextSubId - 1) ∈ ds →
      (run env (run env s0 (es ++ [e])) (ds.map Event.gatewayNext)).groupsDto = some value ∧
      (run env (run env s0 (es ++ [e])) (ds.map Event.gatewayNext)).pageInfoState =
        some value.pageInfo ∧
      (run env (run env s0 (es ++ [e])) (ds.map Event.gatewayNext)).searching = false) ∧
    (((run env s0 (es ++ [e])).nextSubId - 1) ∉ ds →
      (run env (run env s0 (es ++ [e])) (ds.map Event.gatewayNext)).groupsDto =
        (run env s0 (es ++ [e])).groupsDto ∧
      (run env (run env s0 (es ++ [e])) (ds.map Event.gatewayNext)).pageInfoState =
        (run env s0 (es ++ [e])).pageInfoState) := by
  have hwfPre : WfState (run env s0 es) := wf_run_submissions env es hes s0 hwf
  have key : run env s0 (es ++ [e]) = step env (run env s0 es) e :=
    run_append env s0 es [e]
  rw [key]
  have hc := step_submission_core env (run env s0 es) e he
  have hk : (step env (run env s0 es) e).nextSubId - 1 = (run env s0 es).nextSubId := by
    rw [hc.2.1]
    omega
  have hfind : (step env (run env s0 es) e).fetches.find?
      (fun fr => fr.id == (run env s0 es).nextSubId) =
      some ⟨(run env s0 es).nextSubId,
        (step env (run env s0 es) e).currentSearchQuery.trim,
        (step env (run env s0 es) e).currentPage, (run env s0 es).pageSize⟩ := by
    rw [hc.2.2.2.2]
    exact find_fresh (run env s0 es).fetches (run env s0 es).nextSubId _ hwfPre rfl
  rw [hk]
  constructor
  · intro value hok hmem
    rw [hc.2.2.1] at hok
    have hpub := run_deliveries_present env (step env (run env s0 es) e)
      (run env s0 es).nextSubId
      ⟨(run env s0 es).nextSubId,
        (step env (run env s0 es) e).currentSearchQuery.trim,
        (step env (run env s0 es) e).currentPage, (run env s0 es).pageSize⟩
      value hc.1 hfind hok ds hmem
    rw [hpub]
    exact ⟨rfl, rfl, rfl⟩
  · intro hnot
    have habs := run_deliveries_absent env (step env (run env s0 es) e)
      (run env s0 es).nextSubId ds hc.1 hnot
    rw [habs]
    exact ⟨rfl, rfl⟩

/-- Witness for C1: one submission from the initial state, its delivery
arriving; the Published View is the assembled result of that cycle. -/
theorem search_last_submission_wins_witness :
    (run env0 (run env0 initState ([] ++ [Event.search (some "")]))
      ([0].map Event.gatewayNext)).groupsDto = some (buildPaginatedList pi0 []) := by
  have h := search_last_submission_wins env0 initState
    (by intro f hf; simp [initState] at hf)
    [] (by intro x hx; simp at hx)
    (Event.search (some "")) rfl [0]
  exact (h.1 (buildPaginatedList pi0 []) rfl (by decide)).1

end GroupsRegistry
